import Mathlib

/-!
Shallow embedding of the TurboGraph JIT pipeline engine (C++ sources:
`include/types.hpp`, `include/config.hpp`, `src/loader.cpp`, the operator
library `ops.hpp`, the code generator / compiler / cache translation unit and
the pipeline translation unit) together with proofs about the engine's
specification claims.

Modelling conventions:
* C++ `double` is modelled as `ℚ`.  Every concrete computation appearing in a
  claim (sums, products, quotients of small decimal values) is exact in IEEE
  double precision, so the rational model is faithful at those points.
* C++ `int32_t` / `int64_t` / `size_t` are modelled as `Int`; none of the
  claims exercises wrap-around.
* Calls into the C++ standard library that are not part of this repository
  (`std::hash` + `std::hex` formatting, `std::stod`, `std::sqrt`, `std::log`)
  are modelled as explicit function parameters (`hashFn`, `stod`, `sqrtFn`,
  `logFn`); theorems assume only the facts about them that the claims need
  (for instance `stod "100" = some 100`), and witnesses instantiate them with
  concrete functions satisfying those facts.
* `static_cast<int64_t>` / `static_cast<int32_t>` on a floating value
  truncates toward zero; `ratTrunc` below implements exactly that on `ℚ`.
-/

namespace TurboGraph

/-! ## Types and values (`include/types.hpp`) -/

/-- The `DataType` enumeration. -/
inductive DataType where
  | INT32
  | INT64
  | DOUBLE
  | FLOAT
  | STRING
  | INT32_LIST
  | INT64_LIST
  | DOUBLE_LIST
  | STRING_LIST
  | UNKNOWN
deriving DecidableEq

/-- The function `data_type_to_string`. -/
def data_type_to_string : DataType → String
  | DataType.INT32 => "int32"
  | DataType.INT64 => "int64"
  | DataType.DOUBLE => "double"
  | DataType.FLOAT => "float"
  | DataType.STRING => "string"
  | DataType.INT32_LIST => "int32_list"
  | DataType.INT64_LIST => "int64_list"
  | DataType.DOUBLE_LIST => "double_list"
  | DataType.STRING_LIST => "string_list"
  | DataType.UNKNOWN => "unknown"

/-- The function `string_to_data_type`. -/
def string_to_data_type (str : String) : DataType :=
  if str = "int32" then DataType.INT32
  else if str = "int64" then DataType.INT64
  else if str = "double" then DataType.DOUBLE
  else if str = "float" then DataType.FLOAT
  else if str = "string" then DataType.STRING
  else if str = "int32_list" then DataType.INT32_LIST
  else if str = "int64_list" then DataType.INT64_LIST
  else if str = "double_list" then DataType.DOUBLE_LIST
  else if str = "string_list" then DataType.STRING_LIST
  else DataType.UNKNOWN

/-- The tagged union `ValueVariant` (`std::variant` over the scalar and list
payloads); `double`/`float` payloads are modelled as `ℚ`. -/
inductive ValueVariant where
  | vInt32 (v : Int)
  | vInt64 (v : Int)
  | vDouble (v : ℚ)
  | vFloat (v : ℚ)
  | vString (s : String)
  | vInt32List (l : List Int)
  | vInt64List (l : List Int)
  | vDoubleList (l : List ℚ)
  | vStringList (l : List String)
deriving DecidableEq

/-- The `ExecutionContext`: a name-keyed map of `(declared type, value)`
bindings.  The `std::unordered_map` is modelled as an association list where
the most recent binding for a name shadows earlier ones (assignment through
`operator[]` overwrites).  The `metadata` map is never read and is omitted. -/
structure ExecutionContext where
  vars : List (String × DataType × ValueVariant)
deriving DecidableEq

/-- Lookup of a binding, mirroring `variables.find(name)`. -/
def lookupVar (ctx : ExecutionContext) (name : String) :
    Option (DataType × ValueVariant) :=
  (ctx.vars.find? (fun p => p.1 = name)).map Prod.snd

/-- `ExecutionContext::set_variable`: `variables[name] = Variable(name, type, value)`. -/
def set_variable (ctx : ExecutionContext) (name : String) (t : DataType)
    (v : ValueVariant) : ExecutionContext :=
  ⟨(name, t, v) :: ctx.vars⟩

/-- `ExecutionContext::get<T>`: throws `std::runtime_error("Variable not found: " + name)`
when the name is unbound, otherwise yields the stored variant (from which
`std::get<T>` projects).  The thrown error is modelled as `Except.error`. -/
def ctxGet (ctx : ExecutionContext) (name : String) :
    Except String ValueVariant :=
  match lookupVar ctx name with
  | none => Except.error ("Variable not found: " ++ name)
  | some p => Except.ok p.2

/-- `ExecutionContext::has_variable`. -/
def has_variable (ctx : ExecutionContext) (name : String) : Bool :=
  (lookupVar ctx name).isSome

/-- Model of `try { return ctx.get<double>(name); } catch (...) ...`:
`some` exactly when the name is bound and the variant holds a `double`. -/
def ctx_try_get_double (ctx : ExecutionContext) (name : String) : Option ℚ :=
  match lookupVar ctx name with
  | some (_, ValueVariant.vDouble q) => some q
  | _ => none

/-- Model of `try { return ctx.get<int32_t>(name); } catch (...)`. -/
def ctx_try_get_int32 (ctx : ExecutionContext) (name : String) : Option Int :=
  match lookupVar ctx name with
  | some (_, ValueVariant.vInt32 n) => some n
  | _ => none

/-- Model of `try { return ctx.get<int64_t>(name); } catch (...)`. -/
def ctx_try_get_int64 (ctx : ExecutionContext) (name : String) : Option Int :=
  match lookupVar ctx name with
  | some (_, ValueVariant.vInt64 n) => some n
  | _ => none

/-! ## Pipeline IR (`include/types.hpp`) -/

/-- The `ArgType` enumeration. -/
inductive ArgType where
  | VARIABLE
  | LITERAL
  | EXPRESSION
deriving DecidableEq

/-- The `Arg` record: `value`, `type`, `data_type`. -/
structure Arg where
  value : String
  type : ArgType
  data_type : DataType
deriving DecidableEq

/-- `Arg::variable(name, type)`. -/
def Arg.varRef (name : String) (t : DataType) : Arg :=
  ⟨name, ArgType.VARIABLE, t⟩

/-- `Arg::literal(val, type)`. -/
def Arg.lit (val : String) (t : DataType) : Arg :=
  ⟨val, ArgType.LITERAL, t⟩

/-- The `OpCall` record; the `options` string map is an association list. -/
structure OpCall where
  op_name : String
  output_var : String
  args : List Arg
  options : List (String × String)
deriving DecidableEq

/-- An `IOField` of a `PipelineConfig`. -/
structure IOField where
  name : String
  type : DataType
  required : Bool
deriving DecidableEq

/-- The `PipelineConfig` record. -/
structure PipelineConfig where
  name : String
  steps : List OpCall
  inputs : List IOField
  outputs : List IOField
  vars : List IOField
  fingerprint : String
deriving DecidableEq

/-! ## Fingerprint (`PipelineConfig::compute_fingerprint`, `src/loader.cpp`) -/

/-- One input's contribution to the fingerprint hash input:
`input.name << ":" << data_type_to_string(input.type) << ","`. -/
def input_part (i : IOField) : String :=
  i.name ++ ":" ++ data_type_to_string i.type ++ ","

/-- Argument texts joined with `","` (a separator is emitted only between
arguments). -/
def step_args_part (args : List Arg) : String :=
  String.intercalate "," (args.map Arg.value)

/-- One step's contribution:
`step.op_name << "(" << args… << ")->" << step.output_var << ";"`. -/
def step_part (s : OpCall) : String :=
  s.op_name ++ "(" ++ step_args_part s.args ++ ")->" ++ s.output_var ++ ";"

/-- The string accumulated by `compute_fingerprint` before hashing:
name, `"|"`, the inputs, `"|"`, the steps. -/
def fingerprint_string (c : PipelineConfig) : String :=
  c.name ++ "|" ++ String.join (c.inputs.map input_part) ++ "|"
    ++ String.join (c.steps.map step_part)

/-- `compute_fingerprint` applies `std::hash<std::string>` and formats the
result with `std::hex`; that standard-library hash/format pipeline is the
parameter `hashFn`. -/
def compute_fingerprint (hashFn : String → String) (c : PipelineConfig) :
    String :=
  hashFn (fingerprint_string c)

/-- The fingerprint-domain projection named by the specification: pipeline
name, ordered input `(name, type)` pairs, and per step in order
`(op_name, argument texts, output_var)`. -/
def fpProjection (c : PipelineConfig) :
    String × List (String × DataType) × List (String × List String × String) :=
  (c.name,
   c.inputs.map (fun i => (i.name, i.type)),
   c.steps.map (fun s => (s.op_name, s.args.map Arg.value, s.output_var)))

/-! ## Identifier sanitisation (`make_valid_identifier`, three identical
copies: `src/loader.cpp`, the code-generator unit and the pipeline unit) -/

/-- Replacement applied to each character: keep alphanumerics and `'_'`,
replace everything else with `'_'` (`!std::isalnum(c) && c != '_'`). -/
def replaceInvalid (c : Char) : Char :=
  if c.isAlphanum || c = '_' then c else '_'

/-- `make_valid_identifier`: empty input maps to `"p_invalid"`; otherwise the
string is prefixed with `"p_"` when its first character is a digit and then
every invalid character is replaced by `'_'`. -/
def make_valid_identifier (s : String) : String :=
  match s.data with
  | [] => "p_invalid"
  | c :: cs =>
    String.mk ((if c.isDigit then 'p' :: '_' :: c :: cs else c :: cs).map
      replaceInvalid)

/-- Modelled from the spec: sanitisation "replaces every character that is not
alphanumeric or underscore with `'_'` and prefixes `'p_'` when the first
character is a digit".  Stated for comparison against
`make_valid_identifier`. -/
def sanitize_spec (s : String) : String :=
  String.mk ((match s.data with
    | [] => []
    | c :: _ => if c.isDigit then ['p', '_'] else []) ++
    s.data.map replaceInvalid)

/-- The entry symbol emitted by `CodeGenerator::generate_export_function`:
`"pipeline_execute_" + make_valid_identifier(fingerprint)`. -/
def entry_symbol (fp : String) : String :=
  "pipeline_execute_" ++ make_valid_identifier fp

/-- The sixteen characters `std::hex` formatting of a `size_t` can emit;
fingerprints produced by `compute_fingerprint` consist of these. -/
def hex_digits : List Char := "0123456789abcdef".data

/-! ## Operator library (`ops.hpp`) -/

/-- Truncation toward zero of a rational, the semantics of
`static_cast<int64_t>` / `static_cast<int32_t>` applied to a `double`. -/
def ratTrunc (q : ℚ) : Int :=
  q.num.tdiv (q.den : Int)

/-- `div_op`: division returning zero when the divisor is zero. -/
def div_op (a b : ℚ) : ℚ :=
  if b = 0 then 0 else a / b

/-- `sqrt_op`: square root returning zero on negative input; `std::sqrt` is
the parameter `sqrtFn`. -/
def sqrt_op (sqrtFn : ℚ → ℚ) (value : ℚ) : ℚ :=
  if value < 0 then 0 else sqrtFn value

/-- `avg_avg_log`: the piecewise logarithmic bucketing operator.  `logFn r`
models `std::log(r) / std::log(1.5)` on the already-truncated integer ratio;
the surrounding `static_cast<int64_t>` is `ratTrunc`.  Integer division is
C++ truncating division (`Int.tdiv`). -/
def avg_avg_log (logFn : Int → ℚ) (origin : ℚ)
    (inter1 threshold1 inter2 threshold2 : Int) : Int :=
  if origin = 0 then 0
  else
    let ori_abs : Int := ratTrunc |origin|
    if ori_abs ≤ threshold1 then
      let res := ori_abs.tdiv inter1 + 1
      if 0 ≤ origin then res else -res
    else if ori_abs ≤ threshold2 then
      let start := threshold1.tdiv inter1 + 1
      let res := start + (ori_abs - threshold1).tdiv inter2 + 1
      if 0 ≤ origin then res else -res
    else
      let start := threshold1.tdiv inter1 + 1
        + (threshold2 - threshold1).tdiv inter2 + 1
      let realLog := ori_abs.tdiv inter2
      let res := start + ratTrunc (logFn realLog)
      if 0 ≤ origin then res else -res

/-! ## Interpreter executor (pipeline translation unit) -/

/-- `std::get<double>(args[i])` on the interpreter's argument vector: `none`
models both an out-of-range index and a `std::bad_variant_access` (either
aborts the step). -/
def argDouble (args : List ValueVariant) (i : Nat) : Option ℚ :=
  match args.get? i with
  | some (ValueVariant.vDouble q) => some q
  | _ => none

/-- `std::get<int32_t>(args[i])` on the interpreter's argument vector. -/
def argInt32 (args : List ValueVariant) (i : Nat) : Option Int :=
  match args.get? i with
  | some (ValueVariant.vInt32 n) => some n
  | _ => none

/-- `InterpreterExecutor::get_arg_value`: variable references are read from
the context trying `double`, then `int32_t`, then `int64_t`, then falling
back to `0.0`; literals are parsed with `std::stod` (the parameter `stod`),
falling back to `0.0`. -/
def get_arg_value (stod : String → Option ℚ) (arg : Arg)
    (ctx : ExecutionContext) : ValueVariant :=
  match arg.type with
  | ArgType.VARIABLE =>
    if has_variable ctx arg.value then
      match ctx_try_get_double ctx arg.value with
      | some d => ValueVariant.vDouble d
      | none =>
        match ctx_try_get_int32 ctx arg.value with
        | some n => ValueVariant.vDouble (n : ℚ)
        | none =>
          match ctx_try_get_int64 ctx arg.value with
          | some n => ValueVariant.vDouble (n : ℚ)
          | none => ValueVariant.vDouble 0
    else ValueVariant.vDouble 0
  | _ =>
    match stod arg.value with
    | some d => ValueVariant.vDouble d
    | none => ValueVariant.vDouble 0

/-- `InterpreterExecutor::execute_op`: dispatch on the operator name; a step
fails (`none`) on an unknown operator or on a variant-access exception. -/
def execute_op (stod : String → Option ℚ) (sqrtFn : ℚ → ℚ)
    (logFn : Int → ℚ) (op : OpCall) (ctx : ExecutionContext) :
    Option ExecutionContext :=
  let args := op.args.map (fun a => get_arg_value stod a ctx)
  if op.op_name = "add" then do
    let a ← argDouble args 0
    let b ← argDouble args 1
    return set_variable ctx op.output_var DataType.DOUBLE
      (ValueVariant.vDouble (a + b))
  else if op.op_name = "sub" then do
    let a ← argDouble args 0
    let b ← argDouble args 1
    return set_variable ctx op.output_var DataType.DOUBLE
      (ValueVariant.vDouble (a - b))
  else if op.op_name = "mul" then do
    let a ← argDouble args 0
    let b ← argDouble args 1
    return set_variable ctx op.output_var DataType.DOUBLE
      (ValueVariant.vDouble (a * b))
  else if op.op_name = "div" then do
    let a ← argDouble args 0
    let b ← argDouble args 1
    return set_variable ctx op.output_var DataType.DOUBLE
      (ValueVariant.vDouble (if b ≠ 0 then a / b else 0))
  else if op.op_name = "get_sign" then do
    let a ← argDouble args 0
    return set_variable ctx op.output_var DataType.INT32
      (ValueVariant.vInt32 (if 0 < a then 1 else if a < 0 then -1 else 0))
  else if op.op_name = "abs" then do
    let a ← argDouble args 0
    return set_variable ctx op.output_var DataType.DOUBLE
      (ValueVariant.vDouble |a|)
  else if op.op_name = "sqrt" then do
    let a ← argDouble args 0
    return set_variable ctx op.output_var DataType.DOUBLE
      (ValueVariant.vDouble (sqrtFn |a|))
  else if op.op_name = "if_else" then do
    let cond ← argInt32 args 0
    let t ← argDouble args 1
    let f ← argDouble args 2
    return set_variable ctx op.output_var DataType.DOUBLE
      (ValueVariant.vDouble (if cond ≠ 0 then t else f))
  else if op.op_name = "max" then do
    let a ← argDouble args 0
    let b ← argDouble args 1
    return set_variable ctx op.output_var DataType.DOUBLE
      (ValueVariant.vDouble (max a b))
  else if op.op_name = "min" then do
    let a ← argDouble args 0
    let b ← argDouble args 1
    return set_variable ctx op.output_var DataType.DOUBLE
      (ValueVariant.vDouble (min a b))
  else if op.op_name = "square" then do
    let a ← argDouble args 0
    return set_variable ctx op.output_var DataType.DOUBLE
      (ValueVariant.vDouble (a * a))
  else if op.op_name = "percent" then do
    let part ← argDouble args 0
    let total ← argDouble args 1
    return set_variable ctx op.output_var DataType.DOUBLE
      (ValueVariant.vDouble (if total ≠ 0 then part / total * 100 else 0))
  else if op.op_name = "floor" then do
    let a ← argDouble args 0
    return set_variable ctx op.output_var DataType.INT32
      (ValueVariant.vInt32 ⌊a⌋)
  else if op.op_name = "direct_output_int32" then do
    let a ← argDouble args 0
    return set_variable ctx op.output_var DataType.INT32
      (ValueVariant.vInt32 (ratTrunc a))
  else if op.op_name = "direct_output_int64" then do
    let a ← argDouble args 0
    return set_variable ctx op.output_var DataType.INT64
      (ValueVariant.vInt64 (ratTrunc a))
  else if op.op_name = "direct_output_double" then do
    let a ← argDouble args 0
    return set_variable ctx op.output_var DataType.DOUBLE
      (ValueVariant.vDouble a)
  else if op.op_name = "price_diff" then do
    let discount ← argDouble args 0
    let original ← argDouble args 1
    return set_variable ctx op.output_var DataType.DOUBLE
      (ValueVariant.vDouble (if discount = 0 then 0 else discount - original))
  else if op.op_name = "avg_avg_log" then do
    let origin ← argDouble args 0
    let inter1 ← if 1 < args.length then argInt32 args 1 else pure 1000
    let threshold1 ← if 2 < args.length then argInt32 args 2 else pure 15000
    let inter2 ← if 3 < args.length then argInt32 args 3 else pure 5000
    let threshold2 ← if 4 < args.length then argInt32 args 4 else pure 250000
    return set_variable ctx op.output_var DataType.INT64
      (ValueVariant.vInt64 (avg_avg_log logFn origin inter1 threshold1 inter2
        threshold2))
  else
    none

/-- `InterpreterExecutor::execute`: run the steps in order, failing as soon
as one step fails. -/
def interp_execute (stod : String → Option ℚ) (sqrtFn : ℚ → ℚ)
    (logFn : Int → ℚ) (c : PipelineConfig) (ctx : ExecutionContext) :
    Option ExecutionContext :=
  c.steps.foldlM (fun acc step => execute_op stod sqrtFn logFn step acc) ctx

/-! ## Demo pipeline (`create_demo_config`, pipeline translation unit) -/

/-- `create_demo_config` before its final `compute_fingerprint()` call; that
call only fills the `fingerprint` field, which neither the interpreter nor
any fingerprint-string computation reads. -/
def demo_config : PipelineConfig where
  name := "demo_pipeline"
  inputs :=
    [⟨"price_a", DataType.DOUBLE, true⟩,
     ⟨"price_b", DataType.DOUBLE, true⟩,
     ⟨"volume", DataType.INT32, true⟩]
  vars :=
    [⟨"temp_sum", DataType.DOUBLE, false⟩,
     ⟨"temp_product", DataType.DOUBLE, false⟩,
     ⟨"final_score", DataType.DOUBLE, false⟩]
  steps :=
    [⟨"add", "temp_sum",
      [Arg.varRef "price_a" DataType.DOUBLE,
       Arg.varRef "price_b" DataType.DOUBLE], []⟩,
     ⟨"mul", "temp_product",
      [Arg.varRef "temp_sum" DataType.DOUBLE,
       Arg.varRef "volume" DataType.INT32], []⟩,
     ⟨"div", "final_score",
      [Arg.varRef "temp_product" DataType.DOUBLE,
       Arg.lit "100" DataType.DOUBLE], []⟩]
  outputs := [⟨"final_score", DataType.DOUBLE, false⟩]
  fingerprint := ""

/-- The claim's demo context: `price_a = 100.0`, `price_b = 50.0`,
`volume = 10` as `int32`. -/
def demo_context : ExecutionContext :=
  set_variable (set_variable (set_variable ⟨[]⟩
    "price_a" DataType.DOUBLE (ValueVariant.vDouble 100))
    "price_b" DataType.DOUBLE (ValueVariant.vDouble 50))
    "volume" DataType.INT32 (ValueVariant.vInt32 10)

/-! ## JIT marshalling (`JITExecutor::execute` and
`CodeGenerator::generate_export_function`) -/

/-- The `input_doubles` vector built by `JITExecutor::execute`: the `double`
inputs in declaration order, read from the context with
`context.get<double>`; this is the only buffer passed to the generated entry
function. -/
def jit_input_doubles (c : PipelineConfig) (ctx : ExecutionContext) :
    Option (List ℚ) :=
  (c.inputs.filter (fun i => i.type = DataType.DOUBLE)).mapM
    (fun i => ctx_try_get_double ctx i.name)

/-- The `input_int32s` vector built by `JITExecutor::execute`; it is filled
but never passed to the generated entry function. -/
def jit_input_int32s (c : PipelineConfig) (ctx : ExecutionContext) :
    Option (List Int) :=
  (c.inputs.filter (fun i => i.type = DataType.INT32)).mapM
    (fun i => ctx_try_get_int32 ctx i.name)

/-- The unpack plan emitted by `CodeGenerator::generate_export_function`:
each input, in declaration order, is read as element `offset` of
`input_data` reinterpreted at that input's own scalar type, where `offset`
is the input's position counted over all inputs. -/
def unpack_plan (c : PipelineConfig) : List (String × DataType × Nat) :=
  c.inputs.enum.map (fun p => (p.2.name, p.2.type, p.1))

/-! ## Compile cache (`CompilationCache`, compiler translation unit) -/

/-- A cache entry; the `compile_time` field (a `steady_clock` time point used
for nothing) is omitted. -/
structure CacheEntry where
  fingerprint : String
  source_path : String
  so_path : String
deriving DecidableEq

/-- The file system visible to `stat`: `some size` for a stat-able file. -/
def FileSystem := String → Option Nat

/-- `Compiler::file_exists` (`stat` succeeds). -/
def file_exists (fs : FileSystem) (path : String) : Bool :=
  (fs path).isSome

/-- `Compiler::file_size`: the size, or `-1` when `stat` fails. -/
def file_size (fs : FileSystem) (path : String) : Int :=
  match fs path with
  | some n => (n : Int)
  | none => -1

/-- Lookup in the fingerprint-keyed cache map. -/
def find_entry (cache : List (String × CacheEntry)) (fp : String) :
    Option CacheEntry :=
  (cache.find? (fun p => p.1 = fp)).map Prod.snd

/-- `CompilationCache::is_valid`: entry present, artifact `stat`-able, and
both `file_size(source_path)` and `file_size(so_path)` non-negative. -/
def is_valid (fs : FileSystem) (cache : List (String × CacheEntry))
    (fp : String) : Bool :=
  match find_entry cache fp with
  | none => false
  | some e =>
    if ¬ file_exists fs e.so_path then false
    else
      let src_time := file_size fs e.source_path
      let so_time := file_size fs e.so_path
      if src_time < 0 || so_time < 0 then false else true

/-! ## Operator catalog (`OperatorRegistry::register_all_operators`,
code-generator translation unit) -/

/-- An operator descriptor (`OperatorMetadata`). -/
structure OperatorMetadata where
  config_name : String
  function_name : String
  return_type : DataType
  param_count : Nat
  needs_template : Bool
  default_template : String
deriving DecidableEq

/-- Shorthand for one `register_operator` call. -/
def mkOp (c f : String) (r : DataType) (n : Nat) (t : Bool)
    (d : String) : String × OperatorMetadata :=
  (c, ⟨c, f, r, n, t, d⟩)

/-- The catalog built by `register_all_operators`. -/
def operator_catalog : List (String × OperatorMetadata) :=
  [mkOp "get_sign" "get_sign" DataType.INT32 1 false "",
   mkOp "price_diff" "price_diff" DataType.DOUBLE 2 false "",
   mkOp "avg_avg_log" "avg_avg_log" DataType.INT64 5 false "",
   mkOp "direct_output_int32" "direct_output_int32" DataType.INT32 1 true "int32_t",
   mkOp "direct_output_int64" "direct_output_int64" DataType.INT64 1 true "int64_t",
   mkOp "direct_output_double" "direct_output_double" DataType.DOUBLE 1 true "double",
   mkOp "direct_output_string" "direct_output_string" DataType.STRING 1 true "double",
   mkOp "len" "len" DataType.INT64 1 false "",
   mkOp "list_to_string" "list_to_string" DataType.STRING 2 false "",
   mkOp "catein_list_cross" "catein_list_cross" DataType.INT32 2 false "",
   mkOp "catein_list_cross_count" "catein_list_cross_count" DataType.INT32 2 false "",
   mkOp "add" "add_op" DataType.DOUBLE 2 true "double",
   mkOp "sub" "sub_op" DataType.DOUBLE 2 true "double",
   mkOp "mul" "mul_op" DataType.DOUBLE 2 true "double",
   mkOp "div" "div_op" DataType.DOUBLE 2 true "double",
   mkOp "if_else" "if_else" DataType.DOUBLE 3 false "",
   mkOp "max" "max_op" DataType.DOUBLE 2 true "double",
   mkOp "min" "min_op" DataType.DOUBLE 2 true "double",
   mkOp "abs" "abs_op" DataType.DOUBLE 1 true "double",
   mkOp "square" "square_op" DataType.DOUBLE 1 true "double",
   mkOp "sqrt" "sqrt_op" DataType.DOUBLE 1 true "double",
   mkOp "floor" "floor_op" DataType.INT32 1 true "double",
   mkOp "ceil" "ceil_op" DataType.INT32 1 true "double",
   mkOp "percent" "percent_op" DataType.DOUBLE 2 false "",
   mkOp "moving_average" "moving_average" DataType.DOUBLE 2 false "",
   mkOp "vector_sum" "vector_sum" DataType.DOUBLE 1 false "",
   mkOp "vector_avg" "vector_avg" DataType.DOUBLE 1 false ""]

/-- `OperatorRegistry::get_operator`. -/
def get_operator (name : String) : Option OperatorMetadata :=
  (operator_catalog.find? (fun p => p.1 = name)).map Prod.snd

/-! ## Config validation (`JsonConfigParser::validate`, `src/loader.cpp`) -/

/-- `JsonConfigParser::validate`: reject an empty pipeline name, an empty
operator name, or an empty output variable; nothing else is checked (the
`defined_vars` set it maintains never influences the result). -/
def validate (c : PipelineConfig) : Bool :=
  if c.name = "" then false
  else c.steps.all (fun s =>
    !(s.op_name = "" : Bool) && !(s.output_var = "" : Bool))

/-! ## Serialisation round trip (`ConfigGenerator::generate_json` and
`JsonConfigParser::parse_string`, `src/loader.cpp`) -/

/-- The JSON string `generate_json` emits for one argument:
`"$" + value` for a variable reference, the bare text otherwise. -/
def generate_arg_text (a : Arg) : String :=
  if a.type = ArgType.VARIABLE then "$" ++ a.value else a.value

/-- `JsonConfigParser::parse_arg` on a JSON string: a leading `'$'` makes a
variable reference (with the `'$'` stripped and type `UNKNOWN`); otherwise a
literal whose text is kept verbatim and whose declared type comes from the
`std::stod`/`std::stoll` classification, abstracted as `classify`. -/
def parse_arg (classify : String → DataType) (s : String) : Arg :=
  match s.data with
  | '$' :: rest => ⟨String.mk rest, ArgType.VARIABLE, DataType.UNKNOWN⟩
  | _ => ⟨s, ArgType.LITERAL, classify s⟩

/-- Effect of emitting an `IOField` and re-parsing it (`parse_io_fields`):
the type goes through `data_type_to_string` then `string_to_data_type`. -/
def roundtrip_io (f : IOField) : IOField :=
  ⟨f.name, string_to_data_type (data_type_to_string f.type), f.required⟩

/-- Effect of emitting a step and re-parsing it (`parse_steps`). -/
def roundtrip_step (classify : String → DataType) (s : OpCall) : OpCall :=
  ⟨s.op_name, s.output_var,
   s.args.map (fun a => parse_arg classify (generate_arg_text a)), s.options⟩

/-- The config produced by `parse_string (generate_json c)`: `generate_json`
emits name, inputs, variables and steps (outputs are not serialised, so they
re-parse to the empty default), and `parse_string` finishes with
`compute_fingerprint`. -/
def reparse_config (classify : String → DataType)
    (hashFn : String → String) (c : PipelineConfig) : PipelineConfig :=
  let base : PipelineConfig :=
    ⟨c.name, c.steps.map (roundtrip_step classify),
     c.inputs.map roundtrip_io, [], c.vars.map roundtrip_io, ""⟩
  { base with fingerprint := compute_fingerprint hashFn base }

/-- Does a string begin with `'$'`?  (`!str.empty() && str[0] == '$'`.) -/
def starts_dollar (s : String) : Bool :=
  match s.data with
  | '$' :: _ => true
  | _ => false

/-! ## Auxiliary definitions for the proofs: projections of the fingerprint
input, the bucketing core of `avg_avg_log`, and concrete instantiations of
the standard-library parameters and of counterexample configurations. -/

/-- One input `(name, type)` pair rendered for the fingerprint input. -/
def input_pair_part (p : String × DataType) : String :=
  p.1 ++ ":" ++ data_type_to_string p.2 ++ ","

/-- One projected step `(op_name, argument texts, output_var)` rendered for
the fingerprint input. -/
def step_proj_part (p : String × List String × String) : String :=
  p.1 ++ "(" ++ String.intercalate "," p.2.1 ++ ")->" ++ p.2.2 ++ ";"

/-- The magnitude bucket computed by `avg_avg_log` at the default parameters
`inter1 = 1000, threshold1 = 15000, inter2 = 5000, threshold2 = 250000`,
before the sign of the origin is applied. -/
def bucket (logFn : Int → ℚ) (a : Int) : Int :=
  if a ≤ 15000 then a.tdiv 1000 + 1
  else if a ≤ 250000 then
    (15000 : Int).tdiv 1000 + 1 + (a - 15000).tdiv 5000 + 1
  else (15000 : Int).tdiv 1000 + 1 + ((250000 : Int) - 15000).tdiv 5000 + 1
    + ratTrunc (logFn (a.tdiv 5000))

/-- A concrete `std::stod` model that only knows the demo literal `"100"`. -/
def stod_hundred : String → Option ℚ :=
  fun s => if s = "100" then some 100 else none

/-- A concrete `std::stod` model failing on every literal. -/
def stod_none : String → Option ℚ := fun _ => none

/-- A concrete `std::sqrt` model correct at the one point the square-root
claims evaluate (`sqrt 4 = 2`, exact in IEEE double). -/
def sqrt_two_at_four : ℚ → ℚ := fun q => if q = 4 then 2 else 0

/-- A concrete, everywhere-nonnegative model of
`log(r) / log(1.5)`. -/
def log_zero : Int → ℚ := fun _ => 0

/-- A concrete literal-classification model for `parse_arg`. -/
def classify_string : String → DataType := fun _ => DataType.STRING

/-- Config whose single step takes the one literal argument `"x,y"`. -/
def cfg_inj_a : PipelineConfig :=
  ⟨"t", [⟨"f", "o", [Arg.lit "x,y" DataType.STRING], []⟩], [], [], [], ""⟩

/-- Config whose single step takes the two literal arguments `"x"`, `"y"`;
its fingerprint-domain projection differs from `cfg_inj_a`, yet the
fingerprint hash input coincides. -/
def cfg_inj_b : PipelineConfig :=
  ⟨"t", [⟨"f", "o", [Arg.lit "x" DataType.STRING,
    Arg.lit "y" DataType.STRING], []⟩], [], [], [], ""⟩

/-- Config agreeing with `cfg_det_b` on the fingerprint-domain projection
while declaring an extra variable. -/
def cfg_det_a : PipelineConfig :=
  ⟨"d", [⟨"add", "y", [Arg.lit "1" DataType.INT32], []⟩],
   [⟨"x", DataType.DOUBLE, true⟩], [⟨"y", DataType.DOUBLE, false⟩],
   [⟨"tmp", DataType.DOUBLE, false⟩], ""⟩

/-- Like `cfg_det_a` but with no declared variables and no outputs. -/
def cfg_det_b : PipelineConfig :=
  ⟨"d", [⟨"add", "y", [Arg.lit "1" DataType.INT32], []⟩],
   [⟨"x", DataType.DOUBLE, true⟩], [], [], ""⟩

/-- Config whose single step has a literal argument whose text begins with
`'$'`. -/
def cfg_dollar : PipelineConfig :=
  ⟨"t", [⟨"f", "o", [Arg.lit "$a" DataType.STRING], []⟩], [], [], [], ""⟩

/-- Config whose single step calls the catalog operator `add` (declared
arity 2) with one argument. -/
def cfg_arity : PipelineConfig :=
  ⟨"x", [⟨"add", "y", [Arg.lit "1" DataType.INT32], []⟩], [], [], [], ""⟩

/-- A file system containing only the shared object `"lib.so"`. -/
def fs_so_only : FileSystem :=
  fun p => if p = "lib.so" then some 5 else none

/-- A one-entry compile cache whose artifact is `"lib.so"` and whose source
file `"src.cpp"` has been deleted. -/
def cache_one : List (String × CacheEntry) :=
  [("fp", ⟨"fp", "src.cpp", "lib.so"⟩)]

/-! ## Helper lemmas -/

/-- Mapping a function that fixes every element of a list is the identity. -/
theorem map_fix (l : List Char) (f : Char → Char)
    (h : ∀ x ∈ l, f x = x) : l.map f = l := by
  induction l with
  | nil => rfl
  | cons a as ih =>
    rw [List.map_cons, h a (List.mem_cons_self a as),
      ih (fun x hx => h x (List.mem_cons_of_mem a hx))]

/-- Two maps agreeing on every element of a list coincide. -/
theorem map_fix' {α β : Type} (l : List α) (f : α → β) (g : α → β)
    (h : ∀ x ∈ l, f x = g x) : l.map f = l.map g := by
  induction l with
  | nil => rfl
  | cons a as ih =>
    rw [List.map_cons, List.map_cons, h a (List.mem_cons_self a as),
      ih (fun x hx => h x (List.mem_cons_of_mem a hx))]

/-- The fingerprint hash input is a function of the fingerprint-domain
projection. -/
theorem fingerprint_string_proj (c : PipelineConfig) :
    fingerprint_string c =
      (fpProjection c).1 ++ "|"
        ++ String.join ((fpProjection c).2.1.map input_pair_part) ++ "|"
        ++ String.join ((fpProjection c).2.2.map step_proj_part) := by
  simp only [fingerprint_string, fpProjection, List.map_map]
  rfl

/-- Truncation of an integer-valued rational is that integer. -/
theorem ratTrunc_intCast (n : Int) : ratTrunc (n : ℚ) = n := by
  simp [ratTrunc, Rat.num_intCast, Rat.den_intCast]

/-- Truncation toward zero preserves non-negativity. -/
theorem ratTrunc_nonneg (q : ℚ) (h : 0 ≤ q) : 0 ≤ ratTrunc q :=
  Int.tdiv_nonneg (Rat.num_nonneg.mpr h) (by positivity)

/-- `avg_avg_log` at the default parameters is the signed magnitude
bucket. -/
theorem avg_avg_log_eq (logFn : Int → ℚ) (origin : ℚ) :
    avg_avg_log logFn origin 1000 15000 5000 250000 =
      if origin = 0 then 0
      else if 0 ≤ origin then bucket logFn (ratTrunc |origin|)
      else - bucket logFn (ratTrunc |origin|) := by
  unfold avg_avg_log bucket
  split_ifs <;> simp_all <;> split_ifs <;> omega

/-- The magnitude bucket is positive on non-negative magnitudes whenever the
log model is non-negative from ratio 50 up (true of
`log(r)/log(1.5)`, since every third-region ratio is at least 50). -/
theorem bucket_pos (logFn : Int → ℚ)
    (hlog : ∀ r : Int, 50 ≤ r → 0 ≤ logFn r)
    (a : Int) (ha : 0 ≤ a) : 0 < bucket logFn a := by
  unfold bucket
  have c1 : (15000 : Int).tdiv 1000 = 15 := by decide
  have c2 : ((250000 : Int) - 15000).tdiv 5000 = 47 := by decide
  split_ifs with h1 h2
  · have := Int.tdiv_nonneg ha (by decide : (0:Int) ≤ 1000)
    omega
  · have := Int.tdiv_nonneg (by omega : (0:Int) ≤ a - 15000)
      (by decide : (0:Int) ≤ 5000)
    omega
  · have h50 : 50 ≤ a.tdiv 5000 := by
      rw [Int.tdiv_eq_ediv (by omega) (by decide)]
      rw [Int.le_ediv_iff_mul_le (by decide : (0:Int) < 5000)]
      omega
    have := ratTrunc_nonneg _ (hlog _ h50)
    omega

/-- Characters of the hexadecimal alphabet are left unchanged by the
identifier character replacement. -/
theorem replace_hex (c : Char) (h : c ∈ hex_digits) : replaceInvalid c = c := by
  fin_cases h <;> rfl

/-- On a non-empty all-hexadecimal string, `make_valid_identifier` only
prepends `"p_"` when the first character is a digit. -/
theorem mvi_hex_data (s : String) (c : Char) (cs : List Char)
    (hd : s.data = c :: cs) (hh : ∀ x ∈ s.data, x ∈ hex_digits) :
    (make_valid_identifier s).data =
      if c.isDigit then 'p' :: '_' :: c :: cs else c :: cs := by
  have hmap : (c :: cs).map replaceInvalid = c :: cs :=
    map_fix _ _ (fun x hx => replace_hex x (hh x (hd ▸ hx)))
  have hdata : (make_valid_identifier s).data =
      (if c.isDigit then 'p' :: '_' :: c :: cs else c :: cs).map
        replaceInvalid := by
    simp only [make_valid_identifier, hd]
  rw [hdata]
  by_cases hc : c.isDigit
  · rw [if_pos hc, List.map_cons, List.map_cons, hmap]
    have hp : replaceInvalid 'p' = 'p' := rfl
    have hu : replaceInvalid '_' = '_' := rfl
    rw [hp, hu]
  · rw [if_neg hc]
    exact hmap

/-- A data type survives the `data_type_to_string` / `string_to_data_type`
round trip. -/
theorem dt_roundtrip (t : DataType) :
    string_to_data_type (data_type_to_string t) = t := by
  cases t <;> rfl

/-- The serialise-then-parse round trip preserves an argument's text
whenever a non-variable argument does not begin with `'$'`. -/
theorem roundtrip_arg_value (classify : String → DataType) (a : Arg)
    (h : a.type ≠ ArgType.VARIABLE → starts_dollar a.value = false) :
    (parse_arg classify (generate_arg_text a)).value = a.value := by
  by_cases ht : a.type = ArgType.VARIABLE
  · have hgen : generate_arg_text a = "$" ++ a.value := by
      simp [generate_arg_text, ht]
    have hdata : ("$" ++ a.value).data = '$' :: a.value.data := rfl
    rw [hgen]
    simp only [parse_arg, hdata]
  · have hgen : generate_arg_text a = a.value := by
      simp [generate_arg_text, ht]
    rw [hgen]
    have hsd := h ht
    rcases hv : a.value.data with _ | ⟨ch, rest⟩
    · simp only [parse_arg, hv]
    · have hch : ch ≠ '$' := by
        intro hch
        rw [starts_dollar, hv, hch] at hsd
        simp at hsd
      simp only [parse_arg, hv]
      split
      · rename_i r heq
        exfalso
        apply hch
        have h0 := congrArg (fun l => l.head?) heq
        simp only [List.head?] at h0
        exact Option.some.inj h0
      · rfl

/-- Round-tripping an `IOField` does not change its fingerprint
contribution. -/
theorem input_part_roundtrip (i : IOField) :
    input_part (roundtrip_io i) = input_part i := by
  simp [input_part, roundtrip_io, dt_roundtrip]

/-- Round-tripping a step does not change its fingerprint contribution when
no non-variable argument begins with `'$'`. -/
theorem step_part_roundtrip (classify : String → DataType) (s : OpCall)
    (h : ∀ a ∈ s.args,
      a.type ≠ ArgType.VARIABLE → starts_dollar a.value = false) :
    step_part (roundtrip_step classify s) = step_part s := by
  have hargs :
      s.args.map
        (Arg.value ∘ fun a => parse_arg classify (generate_arg_text a))
        = s.args.map Arg.value :=
    map_fix' _ _ _ (fun a ha => roundtrip_arg_value classify a (h a ha))
  simp only [step_part, roundtrip_step, step_args_part, List.map_map, hargs]

/-! ## Claim theorems -/

/-- C1: division returns zero on a zero divisor identically in the operator
library and in the interpreter's `"div"` dispatch, but square root of a
negative value does NOT behave identically: `sqrt_op` returns `0` on `-4`
while the interpreter's `"sqrt"` branch computes `sqrt(|x|)` and yields `2`.
This theorem evaluates both sides at the failing input (`sqrtFn` models
`std::sqrt`, exact at the point `4 ↦ 2`). -/
theorem interp_sqrt_diverges_from_sqrt_op (stod : String → Option ℚ)
    (sqrtFn : ℚ → ℚ) (logFn : Int → ℚ) (hsq : sqrtFn 4 = 2) :
    (∀ a b : ℚ, div_op a b = if b ≠ 0 then a / b else 0) ∧
    (∀ a : ℚ, div_op a 0 = 0) ∧
    (∀ a b : ℚ, execute_op stod sqrtFn logFn
        ⟨"div", "r", [Arg.varRef "x" DataType.DOUBLE,
                      Arg.varRef "y" DataType.DOUBLE], []⟩
        ⟨[("x", DataType.DOUBLE, ValueVariant.vDouble a),
          ("y", DataType.DOUBLE, ValueVariant.vDouble b)]⟩
      = some (set_variable
          ⟨[("x", DataType.DOUBLE, ValueVariant.vDouble a),
            ("y", DataType.DOUBLE, ValueVariant.vDouble b)]⟩
          "r" DataType.DOUBLE (ValueVariant.vDouble (div_op a b)))) ∧
    sqrt_op sqrtFn (-4) = 0 ∧
    (execute_op stod sqrtFn logFn
        ⟨"sqrt", "r", [Arg.varRef "x" DataType.DOUBLE], []⟩
        ⟨[("x", DataType.DOUBLE, ValueVariant.vDouble (-4))]⟩
      = some (set_variable
          ⟨[("x", DataType.DOUBLE, ValueVariant.vDouble (-4))]⟩
          "r" DataType.DOUBLE (ValueVariant.vDouble 2))) ∧
    (2 : ℚ) ≠ 0 := by
  refine ⟨?_, ?_, ?_, ?_, ?_, by norm_num⟩
  · intro a b
    by_cases hb : b = 0 <;> simp [div_op, hb]
  · intro a; simp [div_op]
  · intro a b
    simp only [execute_op, get_arg_value, has_variable, lookupVar,
      ctx_try_get_double, argDouble, Arg.varRef, List.find?, div_op]
    norm_num
    by_cases hb : b = 0 <;> simp [hb]
  · rw [sqrt_op, if_pos (by norm_num)]
  · have habs : |(-4:ℚ)| = 4 := by norm_num
    simp [execute_op, get_arg_value, has_variable, lookupVar,
      ctx_try_get_double, argDouble, Arg.varRef, List.find?, habs, hsq]

/-- Witness for C1 at the concrete standard-library models. -/
theorem interp_sqrt_diverges_from_sqrt_op_witness :
    (∀ a b : ℚ, div_op a b = if b ≠ 0 then a / b else 0) ∧
    (∀ a : ℚ, div_op a 0 = 0) ∧
    (∀ a b : ℚ, execute_op stod_none sqrt_two_at_four log_zero
        ⟨"div", "r", [Arg.varRef "x" DataType.DOUBLE,
                      Arg.varRef "y" DataType.DOUBLE], []⟩
        ⟨[("x", DataType.DOUBLE, ValueVariant.vDouble a),
          ("y", DataType.DOUBLE, ValueVariant.vDouble b)]⟩
      = some (set_variable
          ⟨[("x", DataType.DOUBLE, ValueVariant.vDouble a),
            ("y", DataType.DOUBLE, ValueVariant.vDouble b)]⟩
          "r" DataType.DOUBLE (ValueVariant.vDouble (div_op a b)))) ∧
    sqrt_op sqrt_two_at_four (-4) = 0 ∧
    (execute_op stod_none sqrt_two_at_four log_zero
        ⟨"sqrt", "r", [Arg.varRef "x" DataType.DOUBLE], []⟩
        ⟨[("x", DataType.DOUBLE, ValueVariant.vDouble (-4))]⟩
      = some (set_variable
          ⟨[("x", DataType.DOUBLE, ValueVariant.vDouble (-4))]⟩
          "r" DataType.DOUBLE (ValueVariant.vDouble 2))) ∧
    (2 : ℚ) ≠ 0 :=
  interp_sqrt_diverges_from_sqrt_op stod_none sqrt_two_at_four log_zero
    (by simp [sqrt_two_at_four])

/-- C2 (amended): two pipeline configs that agree on the fingerprint-domain
projection (pipeline name, ordered input `(name, type)` pairs, and per step
its operator name, argument texts and output variable) receive the same
fingerprint from `compute_fingerprint`, for every hash function; in
particular the fingerprint is independent of the variables list, the outputs
list, argument type tags, and step options. -/
theorem fingerprint_determined_by_projection (hashFn : String → String)
    (c1 c2 : PipelineConfig) (h : fpProjection c1 = fpProjection c2) :
    compute_fingerprint hashFn c1 = compute_fingerprint hashFn c2 := by
  unfold compute_fingerprint
  rw [fingerprint_string_proj, fingerprint_string_proj, h]

/-- Witness for C2 on two configs differing only in declared variables and
outputs. -/
theorem fingerprint_determined_by_projection_witness :
    compute_fingerprint id cfg_det_a = compute_fingerprint id cfg_det_b :=
  fingerprint_determined_by_projection id cfg_det_a cfg_det_b (by decide)

/-- Counterexample for C2 as stated: the configs `cfg_inj_a` (one literal
argument `"x,y"`) and `cfg_inj_b` (two literal arguments `"x"`, `"y"`)
differ in the fingerprint-domain projection, yet their fingerprint hash
inputs are the identical string `"t||f(x,y)->o;"`, so `compute_fingerprint`
collides on them deterministically — not merely with negligible
probability. -/
theorem fingerprint_projection_not_injective :
    fpProjection cfg_inj_a ≠ fpProjection cfg_inj_b ∧
    fingerprint_string cfg_inj_a = fingerprint_string cfg_inj_b ∧
    fingerprint_string cfg_inj_a = "t||f(x,y)->o;" ∧
    compute_fingerprint id cfg_inj_a = compute_fingerprint id cfg_inj_b := by
  refine ⟨by decide, by decide, by decide, by decide⟩

/-- C3: for every (non-empty) fingerprint, the emitted entry symbol is
`"pipeline_execute_"` followed by the sanitised fingerprint, where
sanitisation replaces every character that is not alphanumeric or underscore
with `'_'` and prefixes `"p_"` when the first character is a digit; the
fingerprint `"123abc"` yields `"pipeline_execute_p_123abc"`. -/
theorem entry_symbol_spec (s : String) (h : s ≠ "") :
    entry_symbol s = "pipeline_execute_" ++ sanitize_spec s ∧
    entry_symbol "123abc" = "pipeline_execute_p_123abc" := by
  refine ⟨?_, by decide⟩
  unfold entry_symbol
  suffices hs : make_valid_identifier s = sanitize_spec s by rw [hs]
  rcases hd : s.data with _ | ⟨c, cs⟩
  · exact absurd (by cases s with | mk d => simp_all) h
  · simp only [make_valid_identifier, sanitize_spec, hd]
    by_cases hc : c.isDigit <;> simp [hc, replaceInvalid]

/-- Witness for C3 at the claim's concrete fingerprint. -/
theorem entry_symbol_spec_witness :
    entry_symbol "123abc" = "pipeline_execute_" ++ sanitize_spec "123abc" ∧
    entry_symbol "123abc" = "pipeline_execute_p_123abc" :=
  entry_symbol_spec "123abc" (by decide)

/-- C4: distinct fingerprints receive distinct entry-symbol names.
Fingerprints are the `std::hex` rendering of a `size_t`, hence non-empty
strings over the alphabet `0-9a-f`; on that domain the sanitisation in the
symbol name is injective. -/
theorem entry_symbol_injective_on_hex (s₁ s₂ : String)
    (h1 : s₁ ≠ "") (h2 : s₂ ≠ "")
    (hh1 : ∀ x ∈ s₁.data, x ∈ hex_digits)
    (hh2 : ∀ x ∈ s₂.data, x ∈ hex_digits)
    (hne : s₁ ≠ s₂) :
    entry_symbol s₁ ≠ entry_symbol s₂ := by
  intro heq
  rcases hd1 : s₁.data with _ | ⟨c₁, cs₁⟩
  · exact absurd (by cases s₁ with | mk d => simp_all) h1
  rcases hd2 : s₂.data with _ | ⟨c₂, cs₂⟩
  · exact absurd (by cases s₂ with | mk d => simp_all) h2
  have hdq : (make_valid_identifier s₁).data
      = (make_valid_identifier s₂).data := by
    have hq := congrArg String.data heq
    simp only [entry_symbol] at hq
    have hsplit : ("pipeline_execute_" ++ make_valid_identifier s₁).data
        = "pipeline_execute_".data ++ (make_valid_identifier s₁).data := rfl
    have hsplit2 : ("pipeline_execute_" ++ make_valid_identifier s₂).data
        = "pipeline_execute_".data ++ (make_valid_identifier s₂).data := rfl
    rw [hsplit, hsplit2] at hq
    exact List.append_cancel_left hq
  rw [mvi_hex_data s₁ c₁ cs₁ hd1 hh1, mvi_hex_data s₂ c₂ cs₂ hd2 hh2] at hdq
  have hpne : ('p' : Char) ∉ hex_digits := by decide
  have hs12 : s₁ = s₂ → False := fun hq => hne hq
  by_cases d1 : c₁.isDigit <;> by_cases d2 : c₂.isDigit
  · rw [if_pos d1, if_pos d2] at hdq
    apply hs12
    cases s₁; cases s₂
    simp_all
  · rw [if_pos d1, if_neg d2] at hdq
    have hc2 : c₂ = 'p' := by
      have h0 := congrArg (fun l => l.head?) hdq
      simp only [List.head?] at h0
      exact (Option.some.inj h0).symm
    exact hpne (hc2 ▸ hh2 c₂ (by rw [hd2]; exact List.mem_cons_self _ _))
  · rw [if_neg d1, if_pos d2] at hdq
    have hc1 : c₁ = 'p' := by
      have h0 := congrArg (fun l => l.head?) hdq
      simp only [List.head?] at h0
      exact Option.some.inj h0
    exact hpne (hc1 ▸ hh1 c₁ (by rw [hd1]; exact List.mem_cons_self _ _))
  · rw [if_neg d1, if_neg d2] at hdq
    apply hs12
    cases s₁; cases s₂
    simp_all

/-- Witness for C4 on two concrete distinct hexadecimal fingerprints. -/
theorem entry_symbol_injective_on_hex_witness :
    entry_symbol "a" ≠ entry_symbol "1" :=
  entry_symbol_injective_on_hex "a" "1" (by decide) (by decide)
    (by decide) (by decide) (by decide)

/-- C5: on the demo pipeline (`add(price_a, price_b) → temp_sum`;
`mul(temp_sum, volume) → temp_product`; `div(temp_product, 100) →
final_score`) with `price_a = 100.0`, `price_b = 50.0`, `volume = 10 (i32)`,
the interpreter succeeds and yields `final_score = 15.0`.  The JIT path does
not reproduce this: the generated entry function reads each input at its
declaration-order offset through a pointer of that input's own type — in
particular `volume` as `int32` element 2 of `input_data` — while
`JITExecutor::execute` passes only the two-element `double` buffer
`[100.0, 50.0]` (the `int32` buffer `[10]` is filled but never passed), so
the entry reads `volume` from the byte image of `50.0` instead of
receiving `10`. -/
theorem demo_pipeline_interp_fifteen_jit_marshalling_gap
    (stod : String → Option ℚ) (sqrtFn : ℚ → ℚ) (logFn : Int → ℚ)
    (h100 : stod "100" = some 100) :
    (∃ ctx', interp_execute stod sqrtFn logFn demo_config demo_context
        = some ctx' ∧
      ctxGet ctx' "final_score" = Except.ok (ValueVariant.vDouble 15)) ∧
    unpack_plan demo_config =
      [("price_a", DataType.DOUBLE, 0), ("price_b", DataType.DOUBLE, 1),
       ("volume", DataType.INT32, 2)] ∧
    jit_input_doubles demo_config demo_context = some [100, 50] ∧
    jit_input_int32s demo_config demo_context = some [10] ∧
    demo_config.inputs.length = 3 := by
  have e0 : demo_context =
      ⟨[("volume", DataType.INT32, ValueVariant.vInt32 10),
        ("price_b", DataType.DOUBLE, ValueVariant.vDouble 50),
        ("price_a", DataType.DOUBLE, ValueVariant.vDouble 100)]⟩ := rfl
  have h1 : execute_op stod sqrtFn logFn
      ⟨"add", "temp_sum",
        [Arg.varRef "price_a" DataType.DOUBLE,
         Arg.varRef "price_b" DataType.DOUBLE], []⟩
      ⟨[("volume", DataType.INT32, ValueVariant.vInt32 10),
        ("price_b", DataType.DOUBLE, ValueVariant.vDouble 50),
        ("price_a", DataType.DOUBLE, ValueVariant.vDouble 100)]⟩
      = some ⟨[("temp_sum", DataType.DOUBLE, ValueVariant.vDouble 150),
        ("volume", DataType.INT32, ValueVariant.vInt32 10),
        ("price_b", DataType.DOUBLE, ValueVariant.vDouble 50),
        ("price_a", DataType.DOUBLE, ValueVariant.vDouble 100)]⟩ := by
    simp [execute_op, get_arg_value, has_variable, lookupVar,
      ctx_try_get_double, ctx_try_get_int32, ctx_try_get_int64,
      argDouble, set_variable, Arg.varRef, List.find?]
    norm_num
  have h2 : execute_op stod sqrtFn logFn
      ⟨"mul", "temp_product",
        [Arg.varRef "temp_sum" DataType.DOUBLE,
         Arg.varRef "volume" DataType.INT32], []⟩
      ⟨[("temp_sum", DataType.DOUBLE, ValueVariant.vDouble 150),
        ("volume", DataType.INT32, ValueVariant.vInt32 10),
        ("price_b", DataType.DOUBLE, ValueVariant.vDouble 50),
        ("price_a", DataType.DOUBLE, ValueVariant.vDouble 100)]⟩
      = some ⟨[("temp_product", DataType.DOUBLE, ValueVariant.vDouble 1500),
        ("temp_sum", DataType.DOUBLE, ValueVariant.vDouble 150),
        ("volume", DataType.INT32, ValueVariant.vInt32 10),
        ("price_b", DataType.DOUBLE, ValueVariant.vDouble 50),
        ("price_a", DataType.DOUBLE, ValueVariant.vDouble 100)]⟩ := by
    simp [execute_op, get_arg_value, has_variable, lookupVar,
      ctx_try_get_double, ctx_try_get_int32, ctx_try_get_int64,
      argDouble, set_variable, Arg.varRef, List.find?]
    norm_num
  have h3 : execute_op stod sqrtFn logFn
      ⟨"div", "final_score",
        [Arg.varRef "temp_product" DataType.DOUBLE,
         Arg.lit "100" DataType.DOUBLE], []⟩
      ⟨[("temp_product", DataType.DOUBLE, ValueVariant.vDouble 1500),
        ("temp_sum", DataType.DOUBLE, ValueVariant.vDouble 150),
        ("volume", DataType.INT32, ValueVariant.vInt32 10),
        ("price_b", DataType.DOUBLE, ValueVariant.vDouble 50),
        ("price_a", DataType.DOUBLE, ValueVariant.vDouble 100)]⟩
      = some ⟨[("final_score", DataType.DOUBLE, ValueVariant.vDouble 15),
        ("temp_product", DataType.DOUBLE, ValueVariant.vDouble 1500),
        ("temp_sum", DataType.DOUBLE, ValueVariant.vDouble 150),
        ("volume", DataType.INT32, ValueVariant.vInt32 10),
        ("price_b", DataType.DOUBLE, ValueVariant.vDouble 50),
        ("price_a", DataType.DOUBLE, ValueVariant.vDouble 100)]⟩ := by
    simp [execute_op, get_arg_value, has_variable, lookupVar,
      ctx_try_get_double, ctx_try_get_int32, ctx_try_get_int64,
      argDouble, argInt32, set_variable, Arg.varRef, Arg.lit, List.find?,
      h100]
    norm_num
  refine ⟨⟨⟨[("final_score", DataType.DOUBLE, ValueVariant.vDouble 15),
        ("temp_product", DataType.DOUBLE, ValueVariant.vDouble 1500),
        ("temp_sum", DataType.DOUBLE, ValueVariant.vDouble 150),
        ("volume", DataType.INT32, ValueVariant.vInt32 10),
        ("price_b", DataType.DOUBLE, ValueVariant.vDouble 50),
        ("price_a", DataType.DOUBLE, ValueVariant.vDouble 100)]⟩, ?_, ?_⟩,
      ?_, ?_, ?_, ?_⟩
  · rw [interp_execute, e0]
    simp only [demo_config, List.foldlM, h1, h2, h3,
      Option.bind_eq_bind, Option.some_bind, Option.pure_def]
  · simp [ctxGet, lookupVar, List.find?]
  · decide
  · simp [jit_input_doubles, demo_config, ctx_try_get_double, lookupVar,
      demo_context, set_variable, List.find?, List.mapM, List.mapM.loop,
      List.filter]
  · simp [jit_input_int32s, demo_config, ctx_try_get_int32, lookupVar,
      demo_context, set_variable, List.find?, List.mapM, List.mapM.loop,
      List.filter]
  · decide

/-- Witness for C5 at the concrete standard-library models. -/
theorem demo_pipeline_interp_fifteen_jit_marshalling_gap_witness :
    (∃ ctx', interp_execute stod_hundred sqrt_two_at_four log_zero
        demo_config demo_context = some ctx' ∧
      ctxGet ctx' "final_score" = Except.ok (ValueVariant.vDouble 15)) ∧
    unpack_plan demo_config =
      [("price_a", DataType.DOUBLE, 0), ("price_b", DataType.DOUBLE, 1),
       ("volume", DataType.INT32, 2)] ∧
    jit_input_doubles demo_config demo_context = some [100, 50] ∧
    jit_input_int32s demo_config demo_context = some [10] ∧
    demo_config.inputs.length = 3 :=
  demo_pipeline_interp_fifteen_jit_marshalling_gap stod_hundred
    sqrt_two_at_four log_zero (by simp [stod_hundred])

/-- C6: with the default parameters `inter1 = 1000`, `threshold1 = 15000`,
`inter2 = 5000`, `threshold2 = 250000`, the operator `avg_avg_log` maps
`0 ↦ 0`, `5000 ↦ 6`, `-5000 ↦ -6`, `20000 ↦ 18`; the input `300000` falls
in the third piecewise region (`|x| > threshold2`) and produces a positive
result; and for every input the sign of the result matches the sign of the
input.  The hypothesis on `logFn` states that `log(r)/log(1.5)` is
non-negative for every ratio `r ≥ 50`, which holds of the real logarithm and
covers every ratio the third region can produce. -/
theorem avg_avg_log_piecewise (logFn : Int → ℚ)
    (hlog : ∀ r : Int, 50 ≤ r → 0 ≤ logFn r) :
    avg_avg_log logFn 0 1000 15000 5000 250000 = 0 ∧
    avg_avg_log logFn 5000 1000 15000 5000 250000 = 6 ∧
    avg_avg_log logFn (-5000) 1000 15000 5000 250000 = -6 ∧
    avg_avg_log logFn 20000 1000 15000 5000 250000 = 18 ∧
    250000 < ratTrunc |(300000 : ℚ)| ∧
    0 < avg_avg_log logFn 300000 1000 15000 5000 250000 ∧
    ∀ origin : ℚ,
      (0 < origin → 0 < avg_avg_log logFn origin 1000 15000 5000 250000) ∧
      (origin < 0 → avg_avg_log logFn origin 1000 15000 5000 250000 < 0) ∧
      (origin = 0 → avg_avg_log logFn origin 1000 15000 5000 250000 = 0) := by
  have habs5 : |(5000:ℚ)| = ((5000 : Int) : ℚ) := by norm_num
  have habsm5 : |(-5000:ℚ)| = ((5000 : Int) : ℚ) := by norm_num
  have habs20 : |(20000:ℚ)| = ((20000 : Int) : ℚ) := by norm_num
  have habs300 : |(300000:ℚ)| = ((300000 : Int) : ℚ) := by norm_num
  refine ⟨by simp [avg_avg_log], ?_, ?_, ?_, ?_, ?_, ?_⟩
  · rw [avg_avg_log_eq, if_neg (by norm_num), if_pos (by norm_num), habs5,
      ratTrunc_intCast, bucket, if_pos (by decide)]
    decide
  · rw [avg_avg_log_eq, if_neg (by norm_num), if_neg (by norm_num), habsm5,
      ratTrunc_intCast, bucket, if_pos (by decide)]
    decide
  · rw [avg_avg_log_eq, if_neg (by norm_num), if_pos (by norm_num), habs20,
      ratTrunc_intCast, bucket, if_neg (by decide), if_pos (by decide)]
    decide
  · rw [habs300, ratTrunc_intCast]; decide
  · rw [avg_avg_log_eq, if_neg (by norm_num), if_pos (by norm_num)]
    exact bucket_pos logFn hlog _ (ratTrunc_nonneg _ (abs_nonneg _))
  · intro origin
    refine ⟨?_, ?_, ?_⟩
    · intro h
      rw [avg_avg_log_eq, if_neg (ne_of_gt h), if_pos h.le]
      exact bucket_pos logFn hlog _ (ratTrunc_nonneg _ (abs_nonneg _))
    · intro h
      rw [avg_avg_log_eq, if_neg (ne_of_lt h), if_neg (not_le.mpr h)]
      have := bucket_pos logFn hlog (ratTrunc |origin|)
        (ratTrunc_nonneg _ (abs_nonneg _))
      omega
    · intro h; simp [avg_avg_log, h]

/-- Witness for C6 at a concrete non-negative log model. -/
theorem avg_avg_log_piecewise_witness :
    avg_avg_log log_zero 0 1000 15000 5000 250000 = 0 ∧
    avg_avg_log log_zero 5000 1000 15000 5000 250000 = 6 ∧
    avg_avg_log log_zero (-5000) 1000 15000 5000 250000 = -6 ∧
    avg_avg_log log_zero 20000 1000 15000 5000 250000 = 18 ∧
    250000 < ratTrunc |(300000 : ℚ)| ∧
    0 < avg_avg_log log_zero 300000 1000 15000 5000 250000 ∧
    ∀ origin : ℚ,
      (0 < origin → 0 < avg_avg_log log_zero origin 1000 15000 5000 250000) ∧
      (origin < 0 → avg_avg_log log_zero origin 1000 15000 5000 250000 < 0) ∧
      (origin = 0 →
        avg_avg_log log_zero origin 1000 15000 5000 250000 = 0) :=
  avg_avg_log_piecewise log_zero (fun _ _ => le_refl 0)

/-- C7 (amended): a compile-cache entry is reported valid if and only if the
entry exists AND its artifact file is stat-able AND its source file is
stat-able: `is_valid` computes `file_size(source_path)` and returns `false`
when it is negative, so — contrary to the claim — presence of the source
file IS required for validity. -/
theorem cache_is_valid_iff_artifact_and_source_present (fs : FileSystem)
    (cache : List (String × CacheEntry)) (fp : String) :
    is_valid fs cache fp = true ↔
      ∃ e, find_entry cache fp = some e ∧ file_exists fs e.so_path = true ∧
        file_exists fs e.source_path = true := by
  rcases h : find_entry cache fp with _ | e
  · simp [is_valid, h]
  · simp only [is_valid, h]
    rcases hso : fs e.so_path with _ | n
    · simp [file_exists, hso]
    · rcases hsrc : fs e.source_path with _ | m
      · simp [file_exists, file_size, hso, hsrc]
      · simp [file_exists, file_size, hso, hsrc]

/-- Counterexample for C7 as stated: in `cache_one` the entry for `"fp"`
exists and its artifact `"lib.so"` is present and readable, yet `is_valid`
returns `false` because the source file `"src.cpp"` is missing. -/
theorem cache_is_valid_false_without_source :
    is_valid fs_so_only cache_one "fp" = false ∧
    find_entry cache_one "fp" = some ⟨"fp", "src.cpp", "lib.so"⟩ ∧
    file_exists fs_so_only "lib.so" = true ∧
    file_exists fs_so_only "src.cpp" = false := by
  refine ⟨by decide, by decide, by decide, by decide⟩

/-- C8 (amended): `validate` accepts a config exactly when the pipeline name
and every step's operator name and output variable are non-empty; it
performs no catalog arity check, so a step calling a catalog operator with
the wrong number of arguments still validates. -/
theorem validate_checks_only_nonempty_names (c : PipelineConfig) :
    validate c = true ↔
      (¬ c.name = "" ∧
       ∀ s ∈ c.steps, ¬ s.op_name = "" ∧ ¬ s.output_var = "") := by
  unfold validate
  by_cases h : c.name = "" <;> simp [h, List.all_eq_true]

/-- Counterexample for C8 as stated: `cfg_arity` calls the catalog operator
`"add"` (declared arity 2) with a single argument, yet `validate` returns
`true`. -/
theorem validate_accepts_wrong_arity :
    validate cfg_arity = true ∧
    get_operator "add" =
      some ⟨"add", "add_op", DataType.DOUBLE, 2, true, "double"⟩ ∧
    cfg_arity.steps.map (fun s => s.args.length) = [1] := by
  refine ⟨by decide, by decide, by decide⟩

/-- C9 (amended): serialising a config with `generate_json` and re-parsing
it with `parse_string` preserves the fingerprint, PROVIDED no non-variable
argument's text begins with `'$'`; such a literal would be re-parsed as a
variable reference with the `'$'` stripped, changing the fingerprint hash
input. -/
theorem roundtrip_preserves_fingerprint_without_dollar_literals
    (classify : String → DataType) (hashFn : String → String)
    (c : PipelineConfig)
    (h : ∀ s ∈ c.steps, ∀ a ∈ s.args,
      a.type ≠ ArgType.VARIABLE → starts_dollar a.value = false) :
    (reparse_config classify hashFn c).fingerprint
      = compute_fingerprint hashFn c := by
  have hbase : (reparse_config classify hashFn c).fingerprint
      = compute_fingerprint hashFn
        (⟨c.name, c.steps.map (roundtrip_step classify),
          c.inputs.map roundtrip_io, [], c.vars.map roundtrip_io, ""⟩ :
          PipelineConfig) := rfl
  rw [hbase]
  unfold compute_fingerprint fingerprint_string
  have hi : (c.inputs.map roundtrip_io).map input_part
      = c.inputs.map input_part := by
    rw [List.map_map]
    exact map_fix' _ _ _ (fun i _ => input_part_roundtrip i)
  have hs : (c.steps.map (roundtrip_step classify)).map step_part
      = c.steps.map step_part := by
    rw [List.map_map]
    exact map_fix' _ _ _ (fun s hs => step_part_roundtrip classify s (h s hs))
  simp only [hi, hs]

/-- Witness for C9 on the demo pipeline, whose only literal is `"100"`. -/
theorem roundtrip_preserves_fingerprint_witness :
    (reparse_config classify_string id demo_config).fingerprint
      = compute_fingerprint id demo_config :=
  roundtrip_preserves_fingerprint_without_dollar_literals classify_string id
    demo_config (by decide)

/-- Counterexample for C9 as stated: in `cfg_dollar` the single argument is
the literal `"$a"`; after the round trip it comes back as a variable
reference named `"a"`, so the fingerprint hash input — and hence the
fingerprint — changes. -/
theorem roundtrip_dollar_literal_changes_fingerprint :
    fingerprint_string (reparse_config classify_string id cfg_dollar)
      ≠ fingerprint_string cfg_dollar ∧
    (reparse_config classify_string id cfg_dollar).fingerprint
      ≠ compute_fingerprint id cfg_dollar := by
  refine ⟨by decide, by decide⟩

/-- C10: looking up an unbound name in an `ExecutionContext` through the
typed accessor `get` raises the error `"Variable not found: <name>"` rather
than producing a default value, while `has_variable` reports `false` without
an error; on a bound name `get` yields the value most recently stored with
`set_variable`. -/
theorem context_get_semantics (ctx : ExecutionContext) (n : String)
    (t t' : DataType) (v v' : ValueVariant) :
    (lookupVar ctx n = none →
      ctxGet ctx n = Except.error ("Variable not found: " ++ n) ∧
      has_variable ctx n = false) ∧
    ctxGet (set_variable ctx n t v) n = Except.ok v ∧
    ctxGet (set_variable (set_variable ctx n t' v') n t v) n
      = Except.ok v := by
  refine ⟨fun h => ⟨by simp [ctxGet, h], by simp [has_variable, h]⟩, ?_, ?_⟩
  · simp [ctxGet, set_variable, lookupVar, List.find?]
  · simp [ctxGet, set_variable, lookupVar, List.find?]

/-- Witness for C10 on the empty context. -/
theorem context_get_semantics_witness :
    (ctxGet ⟨[]⟩ "x" = Except.error ("Variable not found: " ++ "x") ∧
     has_variable ⟨[]⟩ "x" = false) ∧
    ctxGet (set_variable ⟨[]⟩ "x" DataType.DOUBLE (ValueVariant.vDouble 1))
      "x" = Except.ok (ValueVariant.vDouble 1) ∧
    ctxGet (set_variable (set_variable ⟨[]⟩ "x" DataType.INT32
        (ValueVariant.vInt32 2)) "x" DataType.DOUBLE
        (ValueVariant.vDouble 1)) "x"
      = Except.ok (ValueVariant.vDouble 1) :=
  ⟨(context_get_semantics ⟨[]⟩ "x" DataType.DOUBLE DataType.INT32
      (ValueVariant.vDouble 1) (ValueVariant.vInt32 2)).1 rfl,
   (context_get_semantics ⟨[]⟩ "x" DataType.DOUBLE DataType.INT32
      (ValueVariant.vDouble 1) (ValueVariant.vInt32 2)).2.1,
   (context_get_semantics ⟨[]⟩ "x" DataType.DOUBLE DataType.INT32
      (ValueVariant.vDouble 1) (ValueVariant.vInt32 2)).2.2⟩

end TurboGraph
